import Mathlib

/-!
# PaxOS-9 graphics: touch synchronisation and brightness ramp

Shallow embedding of `lib/graphics/src/graphics.cpp`:

* the file-level variables `touchX`, `touchY`, `liveTouchState`, `newTouchX`,
  `newTouchY`, `isTouchRead` become the record `TouchState`;
* `brightness` and the two function-local statics of `graphics::setBrightness`
  (`running`, `oldValue`) become the record `BrightnessState`;
* `int16_t` / `uint16_t` values are `Int` / `Nat`; the only arithmetic done on them
  (`oldValue--`, `oldValue++`, the ESP32 calibration formulas) is written with an
  explicit reduction modulo `2 ^ 16`;
* calls into collaborators whose code is not in this file (`StandbyMode`, `lcd`,
  `libsystem::log`, `delay`) are either inputs of the embedded function (what
  `StandbyMode::state()` answers) or recorded outputs (how often
  `StandbyMode::trigger()` is called, the list of `Effect`s sent to the display).
-/

namespace graphics

/-! ## Screen geometry -/

/-- Modelled from the spec: the enum `graphics::EScreenOrientation` is declared in
`graphics.hpp`, which is not part of the sources. The two named values are the ones the
code switches on; `other` stands for any value outside the enum, for which the `switch`
statements of `getScreenWidth` / `getScreenHeight` fall through. -/
inductive EScreenOrientation where
  | PORTRAIT
  | LANDSCAPE
  | other
  deriving DecidableEq, Repr

/-- `uint16_t graphics::getScreenWidth()`; the fall-through `return -1` is `65535` as a
`uint16_t`. -/
def getScreenWidth : EScreenOrientation → Nat
  | .PORTRAIT => 320
  | .LANDSCAPE => 480
  | .other => 65535

/-- `uint16_t graphics::getScreenHeight()`. -/
def getScreenHeight : EScreenOrientation → Nat
  | .PORTRAIT => 480
  | .LANDSCAPE => 320
  | .other => 65535

/-! ## Touch state -/

/-- The touch variables of the anonymous namespace. -/
structure TouchState where
  touchX : Int
  touchY : Int
  liveTouchState : Bool
  newTouchX : Int
  newTouchY : Int
  isTouchRead : Bool
  deriving DecidableEq, Repr

/-- The initialisers of the touch variables:
`int16_t touchX = 0, touchY = 0; bool liveTouchState = false;`
`int16_t newTouchX = 0, newTouchY = 0; bool isTouchRead = false;`. -/
def initialTouchState : TouchState :=
  { touchX := 0, touchY := 0, liveTouchState := false,
    newTouchX := 0, newTouchY := 0, isTouchRead := false }

/-- `void graphics::touchIsRead()`. -/
def touchIsRead (s : TouchState) : TouchState :=
  { s with isTouchRead := true }

/-- `void graphics::getTouchPos(int16_t* x, int16_t* y)`: the pair written to `*x`, `*y`. -/
def getTouchPos (s : TouchState) : Int × Int :=
  (s.touchX, s.touchY)

/-- `bool graphics::isTouched()`. -/
def isTouched (s : TouchState) : Bool :=
  decide (s.touchX ≠ -1) && decide (s.touchY ≠ -1)

/-- Conversion of an `int` to `int16_t` (two's complement wrap-around). -/
def toInt16 (n : Int) : Int :=
  (n + 32768) % 65536 - 32768

/-- Step 1 of `graphics::touchUpdate`, simulator build: `lcd->getTouch(&x, &y)` answered
`rawTouchActive` and left `(x, y)` in the two locals. -/
def readTouchSim (rawTouchActive : Bool) (x y : Int) : Int × Int :=
  if !rawTouchActive then (-1, -1) else (x, y)

/-- Step 1 of `graphics::touchUpdate`, ESP32 build: `getTouch(points)` answered `count`
and filled `points[0]`, `points[1]` (both `uint16_t`). The arithmetic is done in `int`
(division truncates towards zero) and the result is stored in an `int16_t`. -/
def readTouchEsp (o : EScreenOrientation) (count : Int) (p0 p1 : Nat) : Int × Int :=
  if count = 1 then
    if o = .PORTRAIT then
      (toInt16 ((((p0 : Int) - 16) * 320).tdiv 303),
       toInt16 ((((p1 : Int) - 23) * 480).tdiv 442))
    else
      (toInt16 ((((p1 : Int) - 23) * 480).tdiv 442),
       toInt16 (320 - (((p0 : Int) - 16) * 320).tdiv 303 - 10))
  else (-1, -1)

/-- Step 2 of `graphics::touchUpdate`: the boundary check on the two locals
`currentLiveTouchX`, `currentLiveTouchY` against the screen size `(w, h)`. -/
def normalizeTouch (w h : Nat) (x y : Int) : Int × Int :=
  if x ≤ 0 ∨ y ≤ 0 ∨ x > (w : Int) ∨ y > (h : Int) then (-1, -1) else (x, y)

/-- `void graphics::touchUpdate()` from step 2 on, for the sample `raw` left in
`currentLiveTouchX`, `currentLiveTouchY` by step 1.

* `asleepAtEntry` is the answer of the first `StandbyMode::state()` call (line 312),
  `asleepAtCheck` the answer of the second one (line 361);
* `o` is the value of `screenOrientation` read by `getScreenWidth/Height`;
* the second component of the result counts the calls of `StandbyMode::trigger()`. -/
def touchUpdate (asleepAtEntry asleepAtCheck : Bool) (o : EScreenOrientation)
    (raw : Int × Int) (s : TouchState) : TouchState × Nat :=
  if asleepAtEntry then (s, 0)
  else
    let live := normalizeTouch (getScreenWidth o) (getScreenHeight o) raw.1 raw.2
    let triggers : Nat :=
      if live.1 ≠ s.touchX ∨ live.2 ≠ s.touchY then
        (if !asleepAtCheck then 1 else 0)
      else 0
    let s1 : TouchState := { s with newTouchX := live.1, newTouchY := live.2 }
    if s1.isTouchRead then
      ({ s1 with touchX := s1.newTouchX, touchY := s1.newTouchY,
                 newTouchX := -1, newTouchY := -1, isTouchRead := false }, triggers)
    else (s1, triggers)

/-- One application-visible operation on the touch state: a tick of `touchUpdate` with
everything it reads from its environment, or a call of `touchIsRead`. -/
inductive TouchOp where
  | tick (asleepAtEntry asleepAtCheck : Bool) (o : EScreenOrientation) (raw : Int × Int)
  | read
  deriving DecidableEq, Repr

/-- Effect of one operation on the touch state. -/
def applyTouchOp (s : TouchState) : TouchOp → TouchState
  | .tick a b o raw => (touchUpdate a b o raw s).1
  | .read => touchIsRead s

/-- The touch state after running a sequence of operations from `s`. -/
def runTouchOps (s : TouchState) (ops : List TouchOp) : TouchState :=
  ops.foldl applyTouchOp s

/-! ## Brightness -/

/-- Calls made by `graphics::setBrightness` into its collaborators, in program order. -/
inductive Effect where
  | log (value : Nat)
  | lcdSetBrightness (level : Nat)
  | delay (ms : Nat)
  | fillScreen (color : Nat)
  deriving DecidableEq, Repr

/-- The variable `brightness` of the anonymous namespace together with the two
function-local statics of `graphics::setBrightness` (`oldValue` exists in the ESP32
build only). -/
structure BrightnessState where
  brightness : Nat
  running : Bool
  oldValue : Nat
  deriving DecidableEq, Repr

/-- The initialisers: `uint16_t brightness = 0xFF / 3;`, `static bool running = false;`,
`static uint16_t oldValue = 0;`. -/
def initialBrightnessState : BrightnessState :=
  { brightness := 0xFF / 3, running := false, oldValue := 0 }

/-- `uint16_t graphics::getBrightness()`. -/
def getBrightness (s : BrightnessState) : Nat :=
  s.brightness

/-- The loop `while (value < oldValue) { oldValue--; lcd->setBrightness(oldValue); delay(1); }`
on `uint16_t` values. `fuel` bounds the number of loop tests; `none` means the bound
was reached. The result is the final `oldValue` and the trace extended by the calls made. -/
def rampDown : Nat → Nat → Nat → List Effect → Option (Nat × List Effect)
  | 0, _, _, _ => none
  | fuel + 1, value, oldValue, trace =>
    if value < oldValue then
      let oldValue1 := (oldValue + 65535) % 65536
      rampDown fuel value oldValue1 (trace ++ [.lcdSetBrightness oldValue1, .delay 1])
    else some (oldValue, trace)

/-- The loop `while (value > oldValue) { oldValue++; lcd->setBrightness(oldValue); delay(1); }`
on `uint16_t` values, with the same conventions as `rampDown`. -/
def rampUp : Nat → Nat → Nat → List Effect → Option (Nat × List Effect)
  | 0, _, _, _ => none
  | fuel + 1, value, oldValue, trace =>
    if value > oldValue then
      let oldValue1 := (oldValue + 1) % 65536
      rampUp fuel value oldValue1 (trace ++ [.lcdSetBrightness oldValue1, .delay 1])
    else some (oldValue, trace)

/-- `void graphics::setBrightness(uint16_t value, const bool temp)`, ESP32 build
(`ESP_PLATFORM` defined). Returns the state on return and the calls made, or `none`
when one of the two loops exhausts `fuel`. -/
def setBrightnessEsp (fuel : Nat) (value : Nat) (temp : Bool) (s : BrightnessState) :
    Option (BrightnessState × List Effect) :=
  if s.running then some (s, [])
  else
    let s1 : BrightnessState := { s with running := true }
    let s2 : BrightnessState := if !temp then { s1 with brightness := value } else s1
    if s2.oldValue = value then some ({ s2 with running := false }, [])
    else
      match rampDown fuel value s2.oldValue [.log value] with
      | none => none
      | some (old1, trace1) =>
        match rampUp fuel value old1 trace1 with
        | none => none
        | some (old2, trace2) =>
          some ({ s2 with oldValue := old2, running := false }, trace2)

/-- `void graphics::setBrightness(uint16_t value, const bool temp)`, simulator build
(`ESP_PLATFORM` not defined). -/
def setBrightnessSim (value : Nat) (temp : Bool) (s : BrightnessState) :
    BrightnessState × List Effect :=
  if s.running then (s, [])
  else
    let s1 : BrightnessState := { s with running := true }
    let s2 : BrightnessState := if !temp then { s1 with brightness := value } else s1
    let trace : List Effect := if value = 0 then [.fillScreen 0x0000] else []
    ({ s2 with running := false }, trace)

/-- The levels written to the brightness sink (`lcd->setBrightness`), in order. -/
def brightnessWrites : List Effect → List Nat
  | [] => []
  | .lcdSetBrightness level :: rest => level :: brightnessWrites rest
  | _ :: rest => brightnessWrites rest

/-- The number of `lcd->fillScreen` calls in a trace. -/
def screenFills : List Effect → Nat
  | [] => 0
  | .fillScreen _ :: rest => screenFills rest + 1
  | _ :: rest => screenFills rest

/-- The levels `c + 1, c + 2, ..., v` (empty unless `c < v`). -/
def levelsUp (c v : Nat) : List Nat :=
  (List.range (v - c)).map (fun i => c + 1 + i)

/-- The levels `c - 1, c - 2, ..., v` (empty unless `v < c`). -/
def levelsDown (c v : Nat) : List Nat :=
  (List.range (c - v)).map (fun i => c - 1 - i)

/-- The state in which a call of `setBrightnessEsp` returns (`none` if it does not
return within the fuel). -/
def resultState (r : Option (BrightnessState × List Effect)) : Option BrightnessState :=
  r.map Prod.fst

/-- The levels a call of `setBrightnessEsp` has written to the brightness sink when it
returns (`none` if it does not return within the fuel). -/
def resultWrites (r : Option (BrightnessState × List Effect)) : Option (List Nat) :=
  r.map (fun p => brightnessWrites p.2)

/-- The `Effect`s of a ramp through `levels`: each level is written and followed by
`delay(1)`. -/
def rampTrace : List Nat → List Effect
  | [] => []
  | level :: rest => .lcdSetBrightness level :: .delay 1 :: rampTrace rest

/-- A touch state in which the acknowledged and the pending position are the sentinel
and no consumption is requested: the state the program is in after `touchIsRead()` and
one tick without touch. -/
def idleTouchState : TouchState :=
  runTouchOps initialTouchState [.read, .tick false false .PORTRAIT (-1, -1)]

/-! ## Touch: normalisation -/

/-- Both coordinates of a normalised sample are the sentinel, or both are positive and
within the screen. -/
theorem normalizeTouch_cases (w h : Nat) (x y : Int) :
    normalizeTouch w h x y = (-1, -1) ∨
      (normalizeTouch w h x y = (x, y) ∧ 0 < x ∧ 0 < y ∧ x ≤ w ∧ y ≤ h) := by
  unfold normalizeTouch
  split
  · exact Or.inl rfl
  · next hn =>
    refine Or.inr ⟨rfl, ?_⟩
    omega

/-- The sentinel appears in one coordinate of a normalised sample exactly when it
appears in the other. -/
theorem normalizeTouch_sentinel_iff (w h : Nat) (x y : Int) :
    (normalizeTouch w h x y).1 = -1 ↔ (normalizeTouch w h x y).2 = -1 := by
  rcases normalizeTouch_cases w h x y with hs | ⟨he, hx, hy, _, _⟩
  · rw [hs]
  · rw [he]
    constructor
    · intro h1
      simp only at h1
      omega
    · intro h2
      simp only at h2
      omega

/-- C3. Coordinate normalisation in `graphics::touchUpdate`: for every raw sample
`(x, y)` and every screen size `(w, h)` the normalised sample is the sentinel `(-1, -1)`
if `x <= 0` or `y <= 0` or `x > w` or `y > h`, and `(x, y)` unchanged otherwise; a
sample read while nothing touches the screen is `(-1, -1)` on both builds and so
normalises to the sentinel. -/
theorem normalizeTouch_spec (w h : Nat) (x y : Int) :
    ((x ≤ 0 ∨ y ≤ 0 ∨ x > (w : Int) ∨ y > (h : Int)) → normalizeTouch w h x y = (-1, -1)) ∧
    (¬ (x ≤ 0 ∨ y ≤ 0 ∨ x > (w : Int) ∨ y > (h : Int)) → normalizeTouch w h x y = (x, y)) ∧
    (normalizeTouch w h (readTouchSim false x y).1 (readTouchSim false x y).2 = (-1, -1)) ∧
    (∀ (o : EScreenOrientation) (count : Int) (p0 p1 : Nat), count ≠ 1 →
      normalizeTouch w h (readTouchEsp o count p0 p1).1 (readTouchEsp o count p0 p1).2
        = (-1, -1)) := by
  refine ⟨?_, ?_, ?_, ?_⟩
  · intro hc
    unfold normalizeTouch
    rw [if_pos hc]
  · intro hc
    unfold normalizeTouch
    rw [if_neg hc]
  · simp [readTouchSim, normalizeTouch]
  · intro o count p0 p1 hcount
    simp [readTouchEsp, hcount, normalizeTouch]

/-- C3, on the screen 320x480: `(0, 100)`, `(-1, -1)`, `(321, 100)` and `(100, 481)`
normalise to `(-1, -1)`, while `(1, 1)` and `(320, 480)` normalise to themselves. -/
theorem normalizeTouch_spec_witness :
    normalizeTouch 320 480 0 100 = (-1, -1) ∧
    normalizeTouch 320 480 (-1) (-1) = (-1, -1) ∧
    normalizeTouch 320 480 321 100 = (-1, -1) ∧
    normalizeTouch 320 480 100 481 = (-1, -1) ∧
    normalizeTouch 320 480 1 1 = (1, 1) ∧
    normalizeTouch 320 480 320 480 = (320, 480) ∧
    normalizeTouch 320 480 (readTouchEsp .PORTRAIT 0 150 200).1
      (readTouchEsp .PORTRAIT 0 150 200).2 = (-1, -1) :=
  ⟨(normalizeTouch_spec 320 480 0 100).1 (by decide),
   (normalizeTouch_spec 320 480 (-1) (-1)).1 (by decide),
   (normalizeTouch_spec 320 480 321 100).1 (by decide),
   (normalizeTouch_spec 320 480 100 481).1 (by decide),
   (normalizeTouch_spec 320 480 1 1).2.1 (by decide),
   (normalizeTouch_spec 320 480 320 480).2.1 (by decide),
   (normalizeTouch_spec 320 480 0 0).2.2.2 .PORTRAIT 0 150 200 (by decide)⟩

/-! ## Touch: one tick -/

/-- A tick that starts asleep returns at once. -/
theorem touchUpdate_asleep_eq (b : Bool) (o : EScreenOrientation) (raw : Int × Int)
    (s : TouchState) : touchUpdate true b o raw s = (s, 0) := by
  simp [touchUpdate]

/-- C4. Standby short-circuit: if `StandbyMode::state()` answers true when the tick
starts, `graphics::touchUpdate` returns the touch state it was called with (acknowledged,
pending and `isTouchRead` included) and calls `StandbyMode::trigger()` zero times,
whatever the raw sample, the orientation and a later answer of `StandbyMode::state()`. -/
theorem touchUpdate_asleep_noop (asleepAtCheck : Bool) (o : EScreenOrientation)
    (raw : Int × Int) (s : TouchState) :
    touchUpdate true asleepAtCheck o raw s = (s, 0) ∧
    (touchUpdate true asleepAtCheck o (200, 200) s).1.touchX = s.touchX ∧
    (touchUpdate true asleepAtCheck o (200, 200) s).1.touchY = s.touchY ∧
    (touchUpdate true asleepAtCheck o (200, 200) s).1.newTouchX = s.newTouchX ∧
    (touchUpdate true asleepAtCheck o (200, 200) s).1.newTouchY = s.newTouchY ∧
    (touchUpdate true asleepAtCheck o (200, 200) s).1.isTouchRead = s.isTouchRead ∧
    (touchUpdate true asleepAtCheck o (200, 200) s).2 = 0 := by
  simp [touchUpdate]

/-- The state after a tick that starts awake and finds `isTouchRead` set. -/
theorem touchUpdate_awake_consuming (b : Bool) (o : EScreenOrientation) (raw : Int × Int)
    (s : TouchState) (hr : s.isTouchRead = true) :
    (touchUpdate false b o raw s).1 =
      { s with
        touchX := (normalizeTouch (getScreenWidth o) (getScreenHeight o) raw.1 raw.2).1,
        touchY := (normalizeTouch (getScreenWidth o) (getScreenHeight o) raw.1 raw.2).2,
        newTouchX := -1, newTouchY := -1, isTouchRead := false } := by
  simp [touchUpdate, hr]

/-- The state after a tick that starts awake and finds `isTouchRead` clear. -/
theorem touchUpdate_awake_buffering (b : Bool) (o : EScreenOrientation) (raw : Int × Int)
    (s : TouchState) (hr : s.isTouchRead = false) :
    (touchUpdate false b o raw s).1 =
      { s with
        newTouchX := (normalizeTouch (getScreenWidth o) (getScreenHeight o) raw.1 raw.2).1,
        newTouchY := (normalizeTouch (getScreenWidth o) (getScreenHeight o) raw.1 raw.2).2 }
    := by
  simp [touchUpdate, hr]

/-- The number of `StandbyMode::trigger()` calls of a tick that starts awake. -/
theorem touchUpdate_awake_triggers (b : Bool) (o : EScreenOrientation) (raw : Int × Int)
    (s : TouchState) :
    (touchUpdate false b o raw s).2 =
      if (normalizeTouch (getScreenWidth o) (getScreenHeight o) raw.1 raw.2).1 ≠ s.touchX ∨
         (normalizeTouch (getScreenWidth o) (getScreenHeight o) raw.1 raw.2).2 ≠ s.touchY
      then (if !b then 1 else 0) else 0 := by
  unfold touchUpdate
  cases hr : s.isTouchRead <;> simp [hr]

/-- The sample `(150, 200)` is inside the screen in every orientation. -/
theorem normalizeTouch_150_200 (o : EScreenOrientation) :
    normalizeTouch (getScreenWidth o) (getScreenHeight o) 150 200 = (150, 200) := by
  cases o <;> decide

/-- C1. Consume protocol, as the postcondition of one tick that starts awake: with `n`
the normalised sample, if `isTouchRead` was set at the start of the tick then afterwards
acknowledged = `n`, pending = `(-1, -1)` and `isTouchRead` is clear; if it was clear then
acknowledged is unchanged, pending = `n` and `isTouchRead` stays clear. In particular,
from acknowledged = pending = `(-1, -1)`, the sequence tick `(150, 200)`, `touchIsRead()`,
tick `(150, 200)` yields acknowledged = `(150, 200)`, and a third tick without
`touchIsRead()` leaves acknowledged = `(150, 200)` whatever its raw sample. -/
theorem touchUpdate_consume_protocol (s : TouchState) (b : Bool) (o : EScreenOrientation)
    (raw : Int × Int) :
    (s.isTouchRead = true →
      ((touchUpdate false b o raw s).1.touchX, (touchUpdate false b o raw s).1.touchY)
          = normalizeTouch (getScreenWidth o) (getScreenHeight o) raw.1 raw.2 ∧
      ((touchUpdate false b o raw s).1.newTouchX, (touchUpdate false b o raw s).1.newTouchY)
          = (-1, -1) ∧
      (touchUpdate false b o raw s).1.isTouchRead = false) ∧
    (s.isTouchRead = false →
      ((touchUpdate false b o raw s).1.touchX, (touchUpdate false b o raw s).1.touchY)
          = (s.touchX, s.touchY) ∧
      ((touchUpdate false b o raw s).1.newTouchX, (touchUpdate false b o raw s).1.newTouchY)
          = normalizeTouch (getScreenWidth o) (getScreenHeight o) raw.1 raw.2 ∧
      (touchUpdate false b o raw s).1.isTouchRead = false) ∧
    (s.touchX = -1 → s.touchY = -1 → s.newTouchX = -1 → s.newTouchY = -1 →
      ∀ (b2 a3 b3 : Bool) (o3 : EScreenOrientation) (raw3 : Int × Int),
        getTouchPos
          (touchUpdate false b2 o (150, 200)
            (touchIsRead (touchUpdate false b o (150, 200) s).1)).1 = (150, 200) ∧
        getTouchPos
          (touchUpdate a3 b3 o3 raw3
            (touchUpdate false b2 o (150, 200)
              (touchIsRead (touchUpdate false b o (150, 200) s).1)).1).1 = (150, 200)) := by
  refine ⟨?_, ?_, ?_⟩
  · intro hr
    rw [touchUpdate_awake_consuming b o raw s hr]
    exact ⟨rfl, rfl, rfl⟩
  · intro hr
    rw [touchUpdate_awake_buffering b o raw s hr]
    exact ⟨rfl, rfl, hr⟩
  · intro _ _ _ _ b2 a3 b3 o3 raw3
    have h2 : (touchUpdate false b2 o (150, 200)
        (touchIsRead (touchUpdate false b o (150, 200) s).1)).1 =
        { touchIsRead (touchUpdate false b o (150, 200) s).1 with
          touchX := 150, touchY := 200, newTouchX := -1, newTouchY := -1,
          isTouchRead := false } := by
      rw [touchUpdate_awake_consuming b2 o (150, 200) _ rfl, normalizeTouch_150_200]
    rw [h2]
    refine ⟨rfl, ?_⟩
    cases a3
    · rw [touchUpdate_awake_buffering b3 o3 raw3 _ rfl]
      rfl
    · rw [touchUpdate_asleep_eq]
      rfl

/-- C1 on concrete input: a consuming and a buffering tick on the screen 320x480, and
the sequence tick, `touchIsRead()`, tick, tick from the idle state. -/
theorem touchUpdate_consume_protocol_witness :
    (touchUpdate false false .PORTRAIT (150, 200) (touchIsRead idleTouchState)).1
      = { idleTouchState with touchX := 150, touchY := 200 } ∧
    (touchUpdate false false .PORTRAIT (150, 200) idleTouchState).1
      = { idleTouchState with newTouchX := 150, newTouchY := 200 } ∧
    getTouchPos
      (touchUpdate false false .PORTRAIT (150, 200)
        (touchIsRead (touchUpdate false false .PORTRAIT (150, 200) idleTouchState).1)).1
      = (150, 200) ∧
    getTouchPos
      (touchUpdate false false .PORTRAIT (17, 300)
        (touchUpdate false false .PORTRAIT (150, 200)
          (touchIsRead (touchUpdate false false .PORTRAIT (150, 200) idleTouchState).1)).1).1
      = (150, 200) := by
  have hc := (touchUpdate_consume_protocol (touchIsRead idleTouchState) false .PORTRAIT
    (150, 200)).1 (by decide)
  have hb := (touchUpdate_consume_protocol idleTouchState false .PORTRAIT
    (150, 200)).2.1 (by decide)
  have hs := (touchUpdate_consume_protocol idleTouchState false .PORTRAIT
    (150, 200)).2.2 (by decide) (by decide) (by decide) (by decide)
    false false false .PORTRAIT (17, 300)
  refine ⟨?_, ?_, hs.1, hs.2⟩
  · decide
  · decide

/-- C9. Wake-edge detection: on a tick during which `StandbyMode::state()` answers false
both times, `StandbyMode::trigger()` is called exactly once if the normalised sample
differs from the acknowledged position `(touchX, touchY)` held at the start of the tick
in at least one coordinate, and zero times if both coordinates are equal. The count
depends on the acknowledged position before this tick's consumption step only: it is the
same for every pending position and either value of `isTouchRead`. -/
theorem touchUpdate_wake_edge (s : TouchState) (o : EScreenOrientation) (raw : Int × Int) :
    (normalizeTouch (getScreenWidth o) (getScreenHeight o) raw.1 raw.2 ≠ (s.touchX, s.touchY) →
      (touchUpdate false false o raw s).2 = 1) ∧
    (normalizeTouch (getScreenWidth o) (getScreenHeight o) raw.1 raw.2 = (s.touchX, s.touchY) →
      (touchUpdate false false o raw s).2 = 0) ∧
    (∀ (px py : Int) (r : Bool),
      (touchUpdate false false o raw
        { s with newTouchX := px, newTouchY := py, isTouchRead := r }).2
        = (touchUpdate false false o raw s).2) := by
  refine ⟨?_, ?_, ?_⟩
  · intro hne
    rw [touchUpdate_awake_triggers]
    have : (normalizeTouch (getScreenWidth o) (getScreenHeight o) raw.1 raw.2).1 ≠ s.touchX ∨
        (normalizeTouch (getScreenWidth o) (getScreenHeight o) raw.1 raw.2).2 ≠ s.touchY := by
      by_contra hcon
      push_neg at hcon
      exact hne (Prod.ext hcon.1 hcon.2)
    simp [this]
  · intro heq
    rw [touchUpdate_awake_triggers, heq]
    simp
  · intro px py r
    rw [touchUpdate_awake_triggers, touchUpdate_awake_triggers]

/-- C9 on concrete input, screen 320x480: a touch at `(150, 200)` against acknowledged
`(-1, -1)` triggers once, also when the pending position already is `(150, 200)`; the
same touch against acknowledged `(150, 200)` does not trigger. -/
theorem touchUpdate_wake_edge_witness :
    (touchUpdate false false .PORTRAIT (150, 200) idleTouchState).2 = 1 ∧
    (touchUpdate false false .PORTRAIT (150, 200)
      { idleTouchState with newTouchX := 150, newTouchY := 200 }).2 = 1 ∧
    (touchUpdate false false .PORTRAIT (150, 200)
      { idleTouchState with touchX := 150, touchY := 200 }).2 = 0 :=
  ⟨(touchUpdate_wake_edge idleTouchState .PORTRAIT (150, 200)).1 (by decide),
   (touchUpdate_wake_edge { idleTouchState with newTouchX := 150, newTouchY := 200 }
      .PORTRAIT (150, 200)).1 (by decide),
   (touchUpdate_wake_edge { idleTouchState with touchX := 150, touchY := 200 }
      .PORTRAIT (150, 200)).2.1 (by decide)⟩

/-! ## Touch: wake calls over several ticks -/

/-- C2, as stated, fails: from acknowledged = `(-1, -1)`, `isTouchRead` clear, awake, on
the screen 320x480, the first tick with raw sample `(150, 200)` calls
`StandbyMode::trigger()` once, and the second tick with the same raw sample and no
`touchIsRead()` in between calls it once more, not zero times. -/
theorem touchUpdate_second_tick_triggers_again :
    idleTouchState.touchX = -1 ∧ idleTouchState.touchY = -1 ∧
    idleTouchState.isTouchRead = false ∧
    (touchUpdate false false .PORTRAIT (150, 200) idleTouchState).2 = 1 ∧
    (touchUpdate false false .PORTRAIT (150, 200)
      (touchUpdate false false .PORTRAIT (150, 200) idleTouchState).1).2 = 1 ∧
    ¬ ((touchUpdate false false .PORTRAIT (150, 200)
      (touchUpdate false false .PORTRAIT (150, 200) idleTouchState).1).2 = 0) := by
  decide

/-- C2, amended. From acknowledged = `(-1, -1)`, `isTouchRead` clear, awake, on the screen
320x480: a first tick with raw sample `(150, 200)` calls `StandbyMode::trigger()` exactly
once; a second tick with the same raw sample and no `touchIsRead()` in between calls it
exactly once more, because acknowledged is still `(-1, -1)`. If instead `touchIsRead()` is
called after the first tick, the second tick also triggers once and makes acknowledged
`(150, 200)`, and only the tick after that, with the same raw sample, triggers zero
times. -/
theorem touchUpdate_triggers_until_consumed (s : TouchState) (hx : s.touchX = -1)
    (hy : s.touchY = -1) (hr : s.isTouchRead = false) :
    (touchUpdate false false .PORTRAIT (150, 200) s).2 = 1 ∧
    (touchUpdate false false .PORTRAIT (150, 200)
      (touchUpdate false false .PORTRAIT (150, 200) s).1).2 = 1 ∧
    getTouchPos (touchUpdate false false .PORTRAIT (150, 200)
      (touchUpdate false false .PORTRAIT (150, 200) s).1).1 = (-1, -1) ∧
    (touchUpdate false false .PORTRAIT (150, 200)
      (touchIsRead (touchUpdate false false .PORTRAIT (150, 200) s).1)).2 = 1 ∧
    getTouchPos (touchUpdate false false .PORTRAIT (150, 200)
      (touchIsRead (touchUpdate false false .PORTRAIT (150, 200) s).1)).1 = (150, 200) ∧
    (touchUpdate false false .PORTRAIT (150, 200)
      (touchUpdate false false .PORTRAIT (150, 200)
        (touchIsRead (touchUpdate false false .PORTRAIT (150, 200) s).1)).1).2 = 0 := by
  have hn := normalizeTouch_150_200 .PORTRAIT
  have h1 := touchUpdate_awake_buffering false .PORTRAIT (150, 200) s hr
  rw [hn] at h1
  have h2 := touchUpdate_awake_consuming false .PORTRAIT (150, 200)
    (touchIsRead (touchUpdate false false .PORTRAIT (150, 200) s).1) rfl
  rw [hn] at h2
  have h3 := touchUpdate_awake_buffering false .PORTRAIT (150, 200)
    (touchUpdate false false .PORTRAIT (150, 200) s).1 (by rw [h1]; exact hr)
  rw [hn] at h3
  refine ⟨?_, ?_, ?_, ?_, ?_, ?_⟩
  · rw [touchUpdate_awake_triggers, hn, hx, hy]
    decide
  · rw [touchUpdate_awake_triggers, hn, h1]
    simp only [hx, hy]
    decide
  · rw [h3, h1]
    simp only [getTouchPos, hx, hy]
  · rw [touchUpdate_awake_triggers, hn, h1]
    simp only [touchIsRead, hx, hy]
    decide
  · rw [h2]
    rfl
  · rw [touchUpdate_awake_triggers, hn, h2]
    simp

/-- C2, amended, on the idle state. -/
theorem touchUpdate_triggers_until_consumed_witness :
    (touchUpdate false false .PORTRAIT (150, 200) idleTouchState).2 = 1 ∧
    (touchUpdate false false .PORTRAIT (150, 200)
      (touchUpdate false false .PORTRAIT (150, 200) idleTouchState).1).2 = 1 ∧
    (touchUpdate false false .PORTRAIT (150, 200)
      (touchUpdate false false .PORTRAIT (150, 200)
        (touchIsRead (touchUpdate false false .PORTRAIT (150, 200) idleTouchState).1)).1).2
      = 0 :=
  have h := touchUpdate_triggers_until_consumed idleTouchState (by decide) (by decide)
    (by decide)
  ⟨h.1, h.2.1, h.2.2.2.2.2⟩

/-! ## Touch: initial state and reachable states -/

/-- C7, evaluated on the code: the initialisers give acknowledged = pending = `(0, 0)`,
not the sentinel, with `isTouchRead` clear; so before any tick `isTouched()` answers true
and `getTouchPos` yields `(0, 0)`. -/
theorem initialTouchState_reports_touch :
    (initialTouchState.touchX, initialTouchState.touchY) = (0, 0) ∧
    (initialTouchState.newTouchX, initialTouchState.newTouchY) = (0, 0) ∧
    initialTouchState.isTouchRead = false ∧
    isTouched initialTouchState = true ∧
    getTouchPos initialTouchState = (0, 0) ∧
    getTouchPos initialTouchState ≠ (-1, -1) := by
  decide

/-- The sentinel invariant is kept by every operation. -/
theorem applyTouchOp_sentinel_inv (s : TouchState) (op : TouchOp)
    (h : (s.touchX = -1 ↔ s.touchY = -1) ∧ (s.newTouchX = -1 ↔ s.newTouchY = -1)) :
    ((applyTouchOp s op).touchX = -1 ↔ (applyTouchOp s op).touchY = -1) ∧
    ((applyTouchOp s op).newTouchX = -1 ↔ (applyTouchOp s op).newTouchY = -1) := by
  cases op with
  | read => exact h
  | tick a b o raw =>
    have hn := normalizeTouch_sentinel_iff (getScreenWidth o) (getScreenHeight o) raw.1 raw.2
    cases a with
    | true =>
      simp only [applyTouchOp, touchUpdate_asleep_eq]
      exact h
    | false =>
      cases hr : s.isTouchRead with
      | true =>
        simp only [applyTouchOp, touchUpdate_awake_consuming b o raw s hr]
        exact ⟨hn, trivial⟩
      | false =>
        simp only [applyTouchOp, touchUpdate_awake_buffering b o raw s hr]
        exact ⟨h.1, hn⟩

/-- The sentinel invariant is kept by every sequence of operations. -/
theorem runTouchOps_sentinel_inv (ops : List TouchOp) (s : TouchState)
    (h : (s.touchX = -1 ↔ s.touchY = -1) ∧ (s.newTouchX = -1 ↔ s.newTouchY = -1)) :
    ((runTouchOps s ops).touchX = -1 ↔ (runTouchOps s ops).touchY = -1) ∧
    ((runTouchOps s ops).newTouchX = -1 ↔ (runTouchOps s ops).newTouchY = -1) := by
  induction ops generalizing s with
  | nil => exact h
  | cons op rest ih =>
    have hstep : runTouchOps s (op :: rest) = runTouchOps (applyTouchOp s op) rest := rfl
    rw [hstep]
    exact ih (applyTouchOp s op) (applyTouchOp_sentinel_inv s op h)

/-- C10. In every state reached from the initial state by any sequence of `touchUpdate`
ticks (any raw sample, any orientation, asleep or not) and `touchIsRead` calls, the
acknowledged pair has `touchX = -1` if and only if `touchY = -1`, and likewise the pending
pair; hence `isTouched()` is equivalent to `touchX != -1`, and no position with exactly
one sentinel coordinate, such as `(-1, 200)`, is returned by `getTouchPos`. -/
theorem reachable_sentinel_pairs (ops : List TouchOp) :
    ((runTouchOps initialTouchState ops).touchX = -1 ↔
      (runTouchOps initialTouchState ops).touchY = -1) ∧
    ((runTouchOps initialTouchState ops).newTouchX = -1 ↔
      (runTouchOps initialTouchState ops).newTouchY = -1) ∧
    (isTouched (runTouchOps initialTouchState ops) = true ↔
      (runTouchOps initialTouchState ops).touchX ≠ -1) ∧
    getTouchPos (runTouchOps initialTouchState ops) ≠ (-1, 200) ∧
    (∀ p : Int, p ≠ -1 →
      getTouchPos (runTouchOps initialTouchState ops) ≠ (-1, p) ∧
      getTouchPos (runTouchOps initialTouchState ops) ≠ (p, -1)) := by
  have h := runTouchOps_sentinel_inv ops initialTouchState (by decide)
  have hhalf : ∀ p : Int, p ≠ -1 →
      getTouchPos (runTouchOps initialTouchState ops) ≠ (-1, p) ∧
      getTouchPos (runTouchOps initialTouchState ops) ≠ (p, -1) := by
    intro p hp
    constructor
    · intro hpos
      have hx : (runTouchOps initialTouchState ops).touchX = -1 := congrArg Prod.fst hpos
      have hy : (runTouchOps initialTouchState ops).touchY = p := congrArg Prod.snd hpos
      exact hp (hy.symm.trans (h.1.mp hx))
    · intro hpos
      have hx : (runTouchOps initialTouchState ops).touchX = p := congrArg Prod.fst hpos
      have hy : (runTouchOps initialTouchState ops).touchY = -1 := congrArg Prod.snd hpos
      exact hp (hx.symm.trans (h.1.mpr hy))
  refine ⟨h.1, h.2, ?_, (hhalf 200 (by decide)).1, hhalf⟩
  unfold isTouched
  rw [Bool.and_eq_true, decide_eq_true_iff, decide_eq_true_iff]
  constructor
  · exact fun hb => hb.1
  · exact fun hx => ⟨hx, fun hy => hx (h.1.mpr hy)⟩

/-! ## Brightness: the two loops -/

/-- The first level of a downward ramp. -/
theorem levelsDown_cons (c v : Nat) (h : v < c) :
    levelsDown c v = (c - 1) :: levelsDown (c - 1) v := by
  unfold levelsDown
  have hlen : c - v = (c - 1 - v) + 1 := by omega
  rw [hlen, List.range_succ_eq_map, List.map_cons, List.map_map]
  congr 1
  apply List.map_congr_left
  intro i _
  simp only [Function.comp_apply]
  omega

/-- The first level of an upward ramp. -/
theorem levelsUp_cons (c v : Nat) (h : c < v) :
    levelsUp c v = (c + 1) :: levelsUp (c + 1) v := by
  unfold levelsUp
  have hlen : v - c = (v - (c + 1)) + 1 := by omega
  rw [hlen, List.range_succ_eq_map, List.map_cons, List.map_map]
  congr 1
  apply List.map_congr_left
  intro i _
  simp only [Function.comp_apply]
  omega

/-- A downward ramp towards a value that is not below the current level is empty. -/
theorem levelsDown_nil (c v : Nat) (h : c ≤ v) : levelsDown c v = [] := by
  unfold levelsDown
  rw [Nat.sub_eq_zero_of_le h]
  rfl

/-- An upward ramp towards a value that is not above the current level is empty. -/
theorem levelsUp_nil (c v : Nat) (h : v ≤ c) : levelsUp c v = [] := by
  unfold levelsUp
  rw [Nat.sub_eq_zero_of_le h]
  rfl

/-- The downward loop terminates within `oldValue - value + 1` loop tests, ends at
`value` and writes the levels `oldValue - 1, ..., value`. -/
theorem rampDown_run (fuel value : Nat) :
    ∀ (oldValue : Nat) (trace : List Effect), oldValue < 65536 → value ≤ oldValue →
      oldValue - value < fuel →
      rampDown fuel value oldValue trace
        = some (value, trace ++ rampTrace (levelsDown oldValue value)) := by
  induction fuel with
  | zero => intro oldValue trace _ _ hf; omega
  | succ n ih =>
    intro oldValue trace hold hle hf
    unfold rampDown
    by_cases hlt : value < oldValue
    · have hdec : (oldValue + 65535) % 65536 = oldValue - 1 := by omega
      rw [if_pos hlt]
      simp only [hdec]
      rw [ih (oldValue - 1) _ (by omega) (by omega) (by omega), levelsDown_cons oldValue value hlt]
      simp [rampTrace]
    · have heq : oldValue = value := by omega
      rw [if_neg hlt, heq, levelsDown_nil value value (le_refl _)]
      simp [rampTrace]

/-- The upward loop terminates within `value - oldValue + 1` loop tests, ends at `value`
and writes the levels `oldValue + 1, ..., value`. -/
theorem rampUp_run (fuel value : Nat) (hv : value < 65536) :
    ∀ (oldValue : Nat) (trace : List Effect), oldValue ≤ value →
      value - oldValue < fuel →
      rampUp fuel value oldValue trace
        = some (value, trace ++ rampTrace (levelsUp oldValue value)) := by
  induction fuel with
  | zero => intro oldValue trace _ hf; omega
  | succ n ih =>
    intro oldValue trace hle hf
    unfold rampUp
    by_cases hlt : value > oldValue
    · have hinc : (oldValue + 1) % 65536 = oldValue + 1 := by omega
      rw [if_pos hlt]
      simp only [hinc]
      rw [ih (oldValue + 1) _ (by omega) (by omega), levelsUp_cons oldValue value hlt]
      simp [rampTrace]
    · have heq : oldValue = value := by omega
      rw [if_neg hlt, heq, levelsUp_nil value value (le_refl _)]
      simp [rampTrace]

/-- The levels written by a trace that ends in a ramp. -/
theorem brightnessWrites_append_rampTrace (levels : List Nat) :
    ∀ trace : List Effect,
      brightnessWrites (trace ++ rampTrace levels) = brightnessWrites trace ++ levels := by
  intro trace
  induction trace with
  | nil =>
    induction levels with
    | nil => rfl
    | cons l rest ih =>
      simp only [List.nil_append, rampTrace, brightnessWrites] at ih ⊢
      rw [ih]
  | cons e rest ih =>
    cases e <;> simp [brightnessWrites, ih]

/-- A ramp does not fill the screen. -/
theorem screenFills_rampTrace (levels : List Nat) : screenFills (rampTrace levels) = 0 := by
  induction levels with
  | nil => rfl
  | cons l rest ih => simpa [rampTrace, screenFills] using ih

/-- The number of levels of an upward and of a downward ramp. -/
theorem levels_length (c v : Nat) :
    (levelsUp c v).length = v - c ∧ (levelsDown c v).length = c - v := by
  simp [levelsUp, levelsDown]

/-- The ESP32 build of `setBrightness`, called with the guard clear: result and complete
trace. -/
theorem setBrightnessEsp_run (c v target : Nat) (temp : Bool) (fuel : Nat)
    (hc : c < 65536) (hv : v < 65536) (hfuel : (v - c) + (c - v) < fuel) :
    setBrightnessEsp fuel v temp { brightness := target, running := false, oldValue := c }
      = some ({ brightness := if temp then target else v, running := false, oldValue := v },
          if c = v then []
          else .log v :: rampTrace (if c < v then levelsUp c v else levelsDown c v)) := by
  unfold setBrightnessEsp
  by_cases hcv : c = v
  · subst hcv
    cases temp <;> simp
  · have hfuel1 : 0 < fuel := by omega
    by_cases hlt : c < v
    · have hd : rampDown fuel v c [.log v] = some (c, [.log v]) := by
        obtain ⟨n, rfl⟩ : ∃ n, fuel = n + 1 := ⟨fuel - 1, by omega⟩
        unfold rampDown
        rw [if_neg (by omega)]
      have hu := rampUp_run fuel v hv c [.log v] (by omega) (by omega)
      cases temp <;> simp [hcv, hlt, hd, hu]
    · have hd := rampDown_run fuel v c [.log v] hc (by omega) (by omega)
      have hu : ∀ tr, rampUp fuel v v tr = some (v, tr) := by
        intro tr
        obtain ⟨n, rfl⟩ : ∃ n, fuel = n + 1 := ⟨fuel - 1, by omega⟩
        unfold rampUp
        rw [if_neg (by omega)]
      cases temp <;> simp [hcv, hlt, hd, hu]

/-! ## Brightness: `setBrightness` -/

/-- C5. Brightness convergence, ESP32 build: for every current level `c` (`oldValue`)
and every requested value `v`, both 16-bit unsigned, a call made with the guard clear
returns (within `|v - c| + 1` tests of either loop condition) with `oldValue = v` and the
guard clear, and has written to the brightness sink exactly the levels
`c + 1, c + 2, ..., v` when `v > c`, `c - 1, c - 2, ..., v` when `v < c`, and nothing when
`v = c`: `|v - c|` writes in unit steps. -/
theorem setBrightnessEsp_converges (c v target : Nat) (temp : Bool) (fuel : Nat)
    (hc : c < 65536) (hv : v < 65536) (hfuel : (v - c) + (c - v) < fuel) :
    resultState
        (setBrightnessEsp fuel v temp { brightness := target, running := false, oldValue := c })
      = some { brightness := if temp then target else v, running := false, oldValue := v } ∧
    resultWrites
        (setBrightnessEsp fuel v temp { brightness := target, running := false, oldValue := c })
      = some (if c < v then levelsUp c v else levelsDown c v) ∧
    (if c < v then levelsUp c v else levelsDown c v).length = (v - c) + (c - v) ∧
    (v = c → resultWrites
        (setBrightnessEsp fuel v temp { brightness := target, running := false, oldValue := c })
      = some []) := by
  have hrun := setBrightnessEsp_run c v target temp fuel hc hv hfuel
  have hwrites : resultWrites
      (setBrightnessEsp fuel v temp { brightness := target, running := false, oldValue := c })
      = some (if c < v then levelsUp c v else levelsDown c v) := by
    rw [hrun]
    by_cases hcv : c = v
    · subst hcv
      simp [resultWrites, brightnessWrites, levelsDown_nil]
    · rw [if_neg hcv]
      have happ := brightnessWrites_append_rampTrace
        (if c < v then levelsUp c v else levelsDown c v) [.log v]
      rw [List.singleton_append] at happ
      simp only [resultWrites, Option.map_some', happ]
      rfl
  refine ⟨?_, hwrites, ?_, ?_⟩
  · rw [hrun]
    rfl
  · by_cases hlt : c < v
    · rw [if_pos hlt, (levels_length c v).1]
      omega
    · rw [if_neg hlt, (levels_length c v).2]
      omega
  · intro hvc
    rw [hwrites, if_neg (by omega), levelsDown_nil c v (by omega)]

/-- C5 on concrete input: with `oldValue = 85`, `setBrightness(255, false)` writes 170
levels, the first being 86 and the last 255, and returns with `oldValue = 255`,
`brightness = 255` and the guard clear; an immediate repeat writes nothing. -/
theorem setBrightnessEsp_converges_witness :
    resultState (setBrightnessEsp 171 255 false
        { brightness := 85, running := false, oldValue := 85 })
      = some { brightness := 255, running := false, oldValue := 255 } ∧
    Option.map List.length (resultWrites (setBrightnessEsp 171 255 false
        { brightness := 85, running := false, oldValue := 85 })) = some 170 ∧
    Option.map List.head? (resultWrites (setBrightnessEsp 171 255 false
        { brightness := 85, running := false, oldValue := 85 })) = some (some 86) ∧
    Option.map List.getLast? (resultWrites (setBrightnessEsp 171 255 false
        { brightness := 85, running := false, oldValue := 85 })) = some (some 255) ∧
    resultWrites (setBrightnessEsp 171 255 false
        { brightness := 255, running := false, oldValue := 255 }) = some [] ∧
    resultState (setBrightnessEsp 171 255 false
        { brightness := 255, running := false, oldValue := 255 })
      = some { brightness := 255, running := false, oldValue := 255 } := by
  have h1 := setBrightnessEsp_converges 85 255 85 false 171 (by decide) (by decide)
    (by decide)
  have h2 := setBrightnessEsp_converges 255 255 255 false 171 (by decide) (by decide)
    (by decide)
  refine ⟨h1.1, ?_, ?_, ?_, h2.2.2.2 rfl, h2.1⟩
  · rw [h1.2.1]
    exact congrArg some h1.2.2.1
  · rw [h1.2.1]
    decide
  · rw [h1.2.1]
    decide

/-- C6. Persisted versus temporary brightness: for every brightness state with the guard
clear and every value `v`, after `setBrightness(v, temp)` has returned, `getBrightness()`
returns `v` when `temp` is false and the previous `brightness` when `temp` is true, on
both builds, whatever `oldValue` is (also when it equals `v` and no ramp runs). -/
theorem setBrightness_persists_unless_temp (c v target : Nat) (temp : Bool) (fuel : Nat)
    (hc : c < 65536) (hv : v < 65536) (hfuel : (v - c) + (c - v) < fuel) :
    Option.map getBrightness (resultState
        (setBrightnessEsp fuel v temp { brightness := target, running := false, oldValue := c }))
      = some (if temp then target else v) ∧
    Option.map getBrightness (resultState
        (setBrightnessEsp fuel v temp { brightness := target, running := false, oldValue := v }))
      = some (if temp then target else v) ∧
    getBrightness
        (setBrightnessSim v temp { brightness := target, running := false, oldValue := c }).1
      = (if temp then target else v) := by
  have hrun := setBrightnessEsp_run c v target temp fuel hc hv hfuel
  have hrun2 := setBrightnessEsp_run v v target temp fuel hv hv (by omega)
  refine ⟨?_, ?_, ?_⟩
  · rw [hrun]
    rfl
  · rw [hrun2]
    rfl
  · cases temp <;> simp [setBrightnessSim, getBrightness]

/-- C6 on concrete input: with `brightness = 255` and `oldValue = 255`,
`setBrightness(0, true)` drives `oldValue` to 0 while `getBrightness()` still returns 255;
`setBrightness(0, false)` makes it return 0. -/
theorem setBrightness_persists_unless_temp_witness :
    Option.map getBrightness (resultState (setBrightnessEsp 256 0 true
        { brightness := 255, running := false, oldValue := 255 })) = some 255 ∧
    Option.map BrightnessState.oldValue (resultState (setBrightnessEsp 256 0 true
        { brightness := 255, running := false, oldValue := 255 })) = some 0 ∧
    Option.map getBrightness (resultState (setBrightnessEsp 256 0 false
        { brightness := 255, running := false, oldValue := 255 })) = some 0 ∧
    getBrightness (setBrightnessSim 0 true
        { brightness := 255, running := false, oldValue := 255 }).1 = 255 := by
  have h1 := setBrightness_persists_unless_temp 255 0 255 true 256 (by decide) (by decide)
    (by decide)
  have h2 := setBrightness_persists_unless_temp 255 0 255 false 256 (by decide) (by decide)
    (by decide)
  refine ⟨h1.1, ?_, h2.1, h1.2.2⟩
  rw [setBrightnessEsp_run 255 0 255 true 256 (by decide) (by decide) (by decide)]
  rfl

/-- C8. Re-entrant brightness request is dropped: for every brightness state in which the
static `running` flag of `setBrightness` is set, and every value `v` and flag `temp`,
the call returns at once on both builds: `brightness`, `oldValue` and the flag are
unchanged and no call is made to the display (no brightness write, no screen fill). -/
theorem setBrightness_reentrant_dropped (s : BrightnessState) (v : Nat) (temp : Bool)
    (fuel : Nat) (h : s.running = true) :
    setBrightnessEsp fuel v temp s = some (s, []) ∧
    setBrightnessSim v temp s = (s, []) ∧
    resultWrites (setBrightnessEsp fuel v temp s) = some [] ∧
    screenFills (setBrightnessSim v temp s).2 = 0 := by
  have he : setBrightnessEsp fuel v temp s = some (s, []) := by
    simp [setBrightnessEsp, h]
  have hs : setBrightnessSim v temp s = (s, []) := by
    simp [setBrightnessSim, h]
  refine ⟨he, hs, ?_, ?_⟩
  · rw [he]
    rfl
  · rw [hs]
    rfl

/-- C8 on concrete input: while a ramp is running, `setBrightness(0, false)` changes
nothing, with no fuel at all on the ESP32 build and without the screen fill of the
simulator build. -/
theorem setBrightness_reentrant_dropped_witness :
    setBrightnessEsp 0 0 false { brightness := 85, running := true, oldValue := 40 }
      = some ({ brightness := 85, running := true, oldValue := 40 }, []) ∧
    setBrightnessSim 0 false { brightness := 85, running := true, oldValue := 40 }
      = ({ brightness := 85, running := true, oldValue := 40 }, []) :=
  have h := setBrightness_reentrant_dropped
    { brightness := 85, running := true, oldValue := 40 } 0 false 0 rfl
  ⟨h.1, h.2.1⟩

end graphics
